import Mathlib

/-!
Verification development for the football alert bot (`worker/bot.py`).

The Python source is shallowly embedded: each `FirebaseManager` method and
each core function of `bot.py` becomes a pure Lean function over an explicit
`BotState` record.  Firestore collections are keyed association lists, the
wall clock is an explicit `Nat` parameter (seconds; the source stores
formatted UTC strings, a strictly monotone encoding of the same instants),
and network / notification effects are injected parameters, so that every
execution path of the source can be replayed on concrete inputs.
-/

namespace Sofa

/-! ## Keyed association-list stores (the Firestore collections) -/

/-- First-match lookup in a keyed list, the document lookup of a collection. -/
def lookupK {α : Type} : List (String × α) → String → Option α
  | [], _ => none
  | (k', v) :: rest, k => if k' = k then some v else lookupK rest k

/-- Delete every binding of a key, the document delete of a collection. -/
def removeK {α : Type} (l : List (String × α)) (k : String) : List (String × α) :=
  l.filter (fun p => p.1 ≠ k)

/-- Upsert a binding, the document `set` of a collection. -/
def putK {α : Type} (l : List (String × α)) (k : String) (v : α) : List (String × α) :=
  (k, v) :: removeK l k

theorem lookupK_putK_same {α : Type} (l : List (String × α)) (k : String) (v : α) :
    lookupK (putK l k v) k = some v := by
  simp [putK, lookupK]

theorem lookupK_removeK_same {α : Type} (l : List (String × α)) (k : String) :
    lookupK (removeK l k) k = none := by
  induction l with
  | nil => rfl
  | cons p rest ih =>
    by_cases h : p.1 = k
    · simpa [removeK, List.filter, h] using ih
    · simpa [removeK, List.filter, h, lookupK] using ih

theorem lookupK_removeK_other {α : Type} (l : List (String × α)) (k k' : String)
    (h : k ≠ k') : lookupK (removeK l k) k' = lookupK l k' := by
  induction l with
  | nil => rfl
  | cons p rest ih =>
    by_cases hp : p.1 = k
    · have hpk' : p.1 ≠ k' := by rw [hp]; exact h
      simp only [removeK, List.filter_cons, decide_not] at ih ⊢
      simp [hp, hpk', lookupK, ih, h]
    · simp only [removeK, List.filter_cons, decide_not] at ih ⊢
      by_cases hq : p.1 = k'
      · simp [hp, hq, lookupK, Ne.symm h]
      · simp [hp, hq, lookupK, ih, Ne.symm h]

theorem lookupK_putK_other {α : Type} (l : List (String × α)) (k k' : String) (v : α)
    (h : k ≠ k') : lookupK (putK l k v) k' = lookupK l k' := by
  simp only [putK, lookupK, h, if_false]
  exact lookupK_removeK_other l k k' h

/-! ## Values and records

Firestore documents are Python dicts; we embed them as association lists of
string keys to a small value type.  `Value.serverTime` stands for the
`firestore.SERVER_TIMESTAMP` sentinel. -/

inductive Value : Type where
  | str : String → Value
  | int : Int → Value
  | serverTime : Value
deriving DecidableEq, Repr

/-- A bet document (the dicts stored in `unresolved_bets` / `resolved_bets`). -/
abbrev BetData := List (String × Value)

/-- Dict `.get`: first binding of the key. -/
def dgetK (d : BetData) (k : String) : Option Value := lookupK d k

/-- Dict update `d[k] = v` / merge override; later writes shadow earlier keys. -/
def dsetK (d : BetData) (k : String) (v : Value) : BetData := putK d k v

/-- One entry of the in-memory `LOCAL_TRACKED_MATCHES` store:
`betPlaced` is the dict field `36_bet_placed`, `score36` the field `36_score`. -/
structure TrackState where
  betPlaced : Bool
  score36 : Option String
deriving DecidableEq, Repr

/-- The default tracked-match dict created on first sighting
(`'36_bet_placed': False, '36_score': None`). -/
def defaultTrack : TrackState := ⟨false, none⟩

/-- The `match_info` dict built in `process_live_match`. -/
structure MatchInfo where
  match_name : String
  league_name : String
  country : String
  league_id : Int
deriving DecidableEq, Repr

/-- A live-event snapshot as consumed from the Sofascore client: the fields of
the `match` object that `bot.py` reads.  `home_score`/`away_score` are the
`.current` goal counts (optional, as in the duck-typed source objects). -/
structure Snapshot where
  id : String
  home_team : String
  away_team : String
  league_name : String
  category_name : String
  league_id : Int
  total_elapsed_minutes : Option Int
  status_description : String
  home_score : Option Int
  away_score : Option Int
deriving DecidableEq, Repr

/-- The whole mutable state of one bot process:
the two Firestore collections, the `FirebaseManager` read cache,
the `config/api_tracker` gate document, the in-memory tracked-match store,
and the list of Telegram messages whose send was attempted. -/
structure BotState where
  localTracked : List (String × TrackState)
  unresolved : List (String × BetData)
  resolved : List (String × BetData)
  cache : List (String × BetData)
  lastApiCall : Option Nat
  sent : List String
deriving DecidableEq, Repr

/-- The state of a freshly started process: empty collections and stores. -/
def initState : BotState := ⟨[], [], [], [], none, []⟩

/-! ## Constants of `bot.py` -/

def SLEEP_TIME : Nat := 60
def FIXTURE_API_INTERVAL : Nat := 900
def MINUTES_REGULAR_BET : List Int := [36, 37]
def BET_TYPE_REGULAR : String := "regular"
def STATUS_LIVE : List String := ["LIVE", "1H", "2H", "ET", "P"]
def STATUS_HALFTIME : String := "HT"
def STATUS_FINISHED : List String := ["FT", "AET", "PEN"]
def MAX_FETCH_RETRIES : Nat := 3
def BET_RESOLUTION_WAIT_MINUTES : Nat := 180

/-! ## Substring matching (the Python `in` operator on strings) -/

/-- `charsStartWith p c`: the pattern `p` is an initial segment of `c`. -/
def charsStartWith : List Char → List Char → Bool
  | [], _ => true
  | _ :: _, [] => false
  | p :: ps, c :: cs => p == c && charsStartWith ps cs

/-- `charsContain p c`: the pattern `p` occurs contiguously inside `c`. -/
def charsContain (pat : List Char) : List Char → Bool
  | [] => charsStartWith pat []
  | c :: cs => charsStartWith pat (c :: cs) || charsContain pat cs

/-- Python's `pat in s` substring test. -/
def containsSub (s pat : String) : Bool := charsContain pat.data s.data

/-- ASCII uppercase of one character (`str.upper` restricted to ASCII, which
covers every keyword the source compares against). -/
def pyUpperChar (c : Char) : Char :=
  if 97 ≤ c.toNat ∧ c.toNat ≤ 122 then Char.ofNat (c.toNat - 32) else c

/-- ASCII lowercase of one character. -/
def pyLowerChar (c : Char) : Char :=
  if 65 ≤ c.toNat ∧ c.toNat ≤ 90 then Char.ofNat (c.toNat + 32) else c

/-- Python `str.upper` (ASCII range), written over the character list so
that it evaluates inside the kernel. -/
def pyUpper (s : String) : String := ⟨s.data.map pyUpperChar⟩

/-- Python `str.lower` (ASCII range). -/
def pyLower (s : String) : String := ⟨s.data.map pyLowerChar⟩

/-! ## League filter constants (`ALLOWED_LEAGUES`, `EXCLUDED_LEAGUES`,
`AMATEUR_KEYWORDS` of `bot.py`) -/

def ALLOWED_LEAGUES : List String :=
  ["Campeonato Brasileiro Série A",
   "Segunda Division, Apertura",
   "Copa do Brasil"]

def EXCLUDED_LEAGUES : List String :=
  ["USA", "NCAA", "Northeast-10 Conference",
   "Costa Rican Women Premier Division",
   "Liga de Expansion MX Apertura",
   "II Lyga", "Ettan Norra", "Pervaya Liga",
   "Promotion d’Honneur",
   "Liga 4", "Eerste Divisie",
   "Gozo Football League Second Division",
   "Eliteserien",
   "Poland", "Mexico", "Wales", "Portugal", "Denmark", "Germany",
   "Hungary", "Sweden", "Serbia", "Switzerland", "Cyprus", "El Salvador",
   "Lithuania", "Honduras", "Chile", "Norway", "England", "Colombia",
   "Women", "Friendly", "Reserves", "Regional League", "Serie C",
   "3. Liga", "U19", "U22", "U21", "U23"]

def AMATEUR_KEYWORDS : List String :=
  ["amateur", "youth", "reserves", "friendly", "U23", "U21", "U19",
   "liga de reservas", "division b", "m-league", "liga pro", "U17"]

/-- The three skip filters at the top of `process_live_match` (filters 1 to 3):
returns `true` when the match is skipped.  Mirrors the source: an explicit
allow-list can override a blacklisted category; amateur keywords are matched
case-sensitively against the lowercased concatenated text, exactly as the
source does (`keyword in full_filter_text` without lowering the keyword). -/
def excludedByFilters (league_name category_name : String) : Bool :=
  let full_filter_text := pyLower (league_name ++ " " ++ category_name)
  let country_is_blacklisted :=
    EXCLUDED_LEAGUES.any (fun keyword => containsSub (pyLower category_name) (pyLower keyword))
  let is_allowed :=
    country_is_blacklisted &&
      ALLOWED_LEAGUES.any (fun keyword => containsSub (pyLower league_name) (pyLower keyword))
  if !is_allowed &&
      (country_is_blacklisted ||
        EXCLUDED_LEAGUES.any (fun keyword => containsSub (pyLower league_name) (pyLower keyword))) then
    true
  else
    AMATEUR_KEYWORDS.any (fun keyword => containsSub full_filter_text keyword)

/-! ## Status normalization (`process_live_match`, lines 578 to 585)

The source uppercases the free-text description and then tests substrings in
this fixed order: `1ST HALF`, `2ND HALF`, `HALFTIME`,
`FINISHED`/`ENDED`/`CANCELLED`, then an exact match against `STATUS_LIVE`,
defaulting to `N/A`.  The comparisons that the caller later performs apply
`.upper()` again; since every value produced here is already uppercase that
second `.upper()` is the identity and is omitted in the embedding. -/
def normalizeStatus (description : String) : String :=
  let sd := pyUpper description
  if containsSub sd "1ST HALF" then "1H"
  else if containsSub sd "2ND HALF" then "2H"
  else if containsSub sd "HALFTIME" then STATUS_HALFTIME
  else if containsSub sd "FINISHED" || containsSub sd "ENDED" || containsSub sd "CANCELLED" then "FT"
  else if sd ∈ STATUS_LIVE then sd
  else "N/A"

/-- Python string interpolation of an optional goal count
(`f-string` renders `None` as the text `None`). -/
def pyStr : Option Int → String
  | some n => toString n
  | none => "None"

/-! ## FirebaseManager

Each method becomes a function on `BotState`.  Failure of the surrounding
infrastructure is injected explicitly: `dbOk = false` models `self.db` being
`None`, `readOk = false` models the Firestore read raising (the `except`
branches).  The happy-path wrappers fix both to `true`. -/

/-- `FirebaseManager.is_bet_unresolved` with fault injection.  Order of the
source checks: missing handle, then the local cache, then a single document
read (which on a hit copies the document into the cache); any raised read
error yields `False`. -/
def is_bet_unresolved_f (dbOk readOk : Bool) (st : BotState) (match_id : String) :
    Bool × BotState :=
  if !dbOk then (false, st)
  else if (lookupK st.cache match_id).isSome then (true, st)
  else if !readOk then (false, st)
  else
    match lookupK st.unresolved match_id with
    | some doc => (true, { st with cache := putK st.cache match_id doc })
    | none => (false, st)

/-- Happy-path `is_bet_unresolved` (database reachable, read succeeds). -/
def is_bet_unresolved (st : BotState) (match_id : String) : Bool × BotState :=
  is_bet_unresolved_f true true st match_id

/-- `FirebaseManager.get_unresolved_bet_data` (happy path): cache first, then
a document read that fills the cache on a hit. -/
def get_unresolved_bet_data (st : BotState) (match_id : String) :
    Option BetData × BotState :=
  match lookupK st.cache match_id with
  | some doc => (some doc, st)
  | none =>
    match lookupK st.unresolved match_id with
    | some doc => (some doc, { st with cache := putK st.cache match_id doc })
    | none => (none, st)

/-- `FirebaseManager.add_unresolved_bet`: stamps `placed_at` with the current
time, then upserts the document and mirrors it into the cache.  With the
database handle absent the method returns without writing. -/
def add_unresolved_bet (dbOk : Bool) (st : BotState) (match_id : String)
    (data : BetData) (now : Nat) : BotState :=
  if !dbOk then st
  else
    let data := dsetK data "placed_at" (Value.int (Int.ofNat now))
    { st with
      unresolved := putK st.unresolved match_id data
      cache := putK st.cache match_id data }

/-- The resolved-bet document written by `move_to_resolved`:
the unresolved document plus `outcome`, `resolved_at` and the
`resolution_timestamp` server sentinel. -/
def resolvedData (bet_info : BetData) (outcome : String) (now : Nat) : BetData :=
  dsetK (dsetK (dsetK bet_info "outcome" (Value.str outcome))
      "resolved_at" (Value.int (Int.ofNat now)))
    "resolution_timestamp" Value.serverTime

/-- Where, if anywhere, `move_to_resolved` raises.  The method performs two
separate Firestore operations inside one `try`: the `set` on `resolved_bets`
and then the `delete` on `unresolved_bets`.  `onSet` also covers the absent
database handle (same observable result: `False`, no write). -/
inductive MoveFail : Type where
  | ok : MoveFail
  | onSet : MoveFail
  | onDelete : MoveFail
deriving DecidableEq, Repr

/-- `FirebaseManager.move_to_resolved`: write the resolved copy, delete the
unresolved document, drop the cache entry; an exception at either Firestore
operation leaves everything already written in place and returns `False`. -/
def move_to_resolved (st : BotState) (match_id : String) (bet_info : BetData)
    (outcome : String) (now : Nat) (fail : MoveFail) : BotState × Bool :=
  match fail with
  | MoveFail.onSet => (st, false)
  | MoveFail.onDelete =>
    ({ st with resolved := putK st.resolved match_id (resolvedData bet_info outcome now) },
     false)
  | MoveFail.ok =>
    ({ st with
        resolved := putK st.resolved match_id (resolvedData bet_info outcome now)
        unresolved := removeK st.unresolved match_id
        cache := removeK st.cache match_id },
     true)

/-- `send_telegram`: the attempt is recorded (the message is handed to the
Telegram API); `sendOk` is whether the bounded-retry delivery succeeded,
which is the returned boolean. -/
def send_telegram (st : BotState) (msg : String) (sendOk : Bool) : BotState × Bool :=
  ({ st with sent := st.sent ++ [msg] }, sendOk)

/-! ## Bet placement (`place_regular_bet`) -/

/-- The `unresolved_data` dict literal of `place_regular_bet` (lines 446 to
456), in source order.  These nine keys are all the record ever carries. -/
def unresolvedData (mi : MatchInfo) (score : String) (fixture_id : String)
    (now : Nat) : BetData :=
  [("match_name", Value.str mi.match_name),
   ("placed_at", Value.int (Int.ofNat now)),
   ("league", Value.str mi.league_name),
   ("country", Value.str mi.country),
   ("league_id", Value.int mi.league_id),
   ("bet_type", Value.str BET_TYPE_REGULAR),
   ("36_score", Value.str score),
   ("fixture_id", Value.str fixture_id),
   ("sofascored_id", Value.str fixture_id)]

/-- The Telegram text announcing a placed bet (content abbreviated; no claim
depends on the exact wording). -/
def placedMessage (mi : MatchInfo) (score : String) : String :=
  "36 MIN " ++ mi.match_name ++ " " ++ mi.country ++ " " ++ mi.league_name ++
    " score " ++ score ++ " correct score bet placed for half time"

/-- `place_regular_bet`: if a bet for this fixture is already unresolved the
placement is skipped (marking the local state as placed); otherwise a
qualifying score `1-1`/`2-2`/`3-3` creates the bet and sends the message,
and a non-qualifying score just marks the local state as evaluated. -/
def place_regular_bet (dbOk readOk : Bool) (st : BotState) (state : TrackState)
    (fixture_id score : String) (mi : MatchInfo) (now : Nat) (sendOk : Bool) :
    BotState :=
  let p := is_bet_unresolved_f dbOk readOk st fixture_id
  if p.1 then
    let st := p.2
    if !state.betPlaced then
      { st with localTracked := putK st.localTracked fixture_id ({ state with betPlaced := true }) }
    else st
  else
    let st := p.2
    if score = "1-1" ∨ score = "2-2" ∨ score = "3-3" then
      let state := { state with betPlaced := true, score36 := some score }
      let st := { st with localTracked := putK st.localTracked fixture_id state }
      let st := add_unresolved_bet dbOk st fixture_id
        (unresolvedData mi score fixture_id now) now
      (send_telegram st (placedMessage mi score) sendOk).1
    else
      { st with localTracked := putK st.localTracked fixture_id ({ state with betPlaced := true }) }

/-! ## Halftime resolution (`check_ht_result`) -/

/-- The Telegram text announcing a halftime result (content abbreviated). -/
def htMessage (outcome : String) (mi : MatchInfo) (country league current_score
    bet_score : String) : String :=
  "HT RESULT " ++ mi.match_name ++ " " ++ country ++ " " ++ league ++
    " ht score " ++ current_score ++ " bet score " ++ bet_score ++
    (if outcome = "win" then " 36 min bet WON" else " 36 min bet LOST")

/-- `check_ht_result`: look up the unresolved bet; for a `regular` bet the
outcome is `win` exactly when the halftime score equals the recorded
`36_score`, the document is moved to `resolved_bets` and the message sent
(the send result is discarded); for any other bet type `outcome` stays
`None` and nothing happens.  Afterwards, if no unresolved bet remains, the
local tracked entry is deleted.  The unused `state` argument of the source
is omitted. -/
def check_ht_result (st : BotState) (fixture_id score : String) (mi : MatchInfo)
    (now : Nat) (fail : MoveFail) (sendOk : Bool) : BotState :=
  let current_score := score
  let q := get_unresolved_bet_data st fixture_id
  let st1 :=
    match q.1 with
    | none => q.2
    | some bet =>
      let st := q.2
      let country_name := match dgetK bet "country" with
        | some (Value.str s) => s
        | _ => "N/A"
      let league_name := match dgetK bet "league" with
        | some (Value.str s) => s
        | _ => "N/A"
      if dgetK bet "bet_type" = some (Value.str BET_TYPE_REGULAR) then
        let bet_score := match dgetK bet "36_score" with
          | some (Value.str s) => s
          | _ => "N/A"
        let outcome := if current_score = bet_score then "win" else "loss"
        let message := htMessage outcome mi country_name league_name current_score bet_score
        let st := (move_to_resolved st fixture_id bet outcome now fail).1
        (send_telegram st message sendOk).1
      else st
  let r := is_bet_unresolved st1 fixture_id
  if !r.1 then
    { r.2 with localTracked := removeK r.2.localTracked fixture_id }
  else r.2

/-! ## The stale-bet reconciliation sweep (`check_and_resolve_stale_bets`)

The Sofascore point lookup is an oracle `String → Nat → Option Snapshot`
giving, per entity and per attempt index, what
`get_finished_match_details` returns (already including its id-validation);
each oracle invocation is one network point-lookup. -/

/-- `robust_get_finished_match_details` for one entity: up to
`MAX_FETCH_RETRIES = 3` attempts (indices 0, 1, 2); on the last failure the
client is torn down, reinitialized, and one more fetch (index 3) is tried.
Returns the fetched data, if any, and the number of point-lookups made. -/
def robustCalls (oracle : Nat → Option Snapshot) : Option Snapshot × Nat :=
  match oracle 0 with
  | some r => (some r, 1)
  | none =>
    match oracle 1 with
    | some r => (some r, 2)
    | none =>
      match oracle 2 with
      | some r => (some r, 3)
      | none =>
        match oracle 3 with
        | some r => (some r, 4)
        | none => (none, 4)

/-- `FirebaseManager.get_stale_unresolved_bets`: scan `unresolved_bets` for
documents whose `bet_type` is not `regular` and whose `placed_at` parses and
is older than the wait threshold (`180` minutes). -/
def get_stale_unresolved_bets (unresolved : List (String × BetData)) (now : Nat) :
    List (String × BetData) :=
  unresolved.filter (fun e =>
    (if dgetK e.2 "bet_type" = some (Value.str BET_TYPE_REGULAR) then false else true) &&
    (match dgetK e.2 "placed_at" with
     | some (Value.int t) =>
       decide (t + (BET_RESOLUTION_WAIT_MINUTES : Int) * 60 < (Int.ofNat now))
     | _ => false))

/-- One iteration of the sweep loop, folding over the stale entries;
the accumulator carries the state, the total point-lookup count, and the
`successful_api_call` flag.  A fetched terminal state computes the final
score, but `outcome` is initialized to `None` and no resolution rule ever
assigns it (the source comment defers other bet types), so the guarded
resolution block is kept verbatim yet can never run. -/
def sweepStep (now : Nat) (oracle : String → Nat → Option Snapshot) (sendOk : Bool)
    (acc : BotState × Nat × Bool) (entry : String × BetData) : BotState × Nat × Bool :=
  let st := acc.1
  let calls := acc.2.1
  let success := acc.2.2
  let match_id := entry.1
  let bet_info := entry.2
  let sofascored_id := match dgetK bet_info "sofascored_id" with
    | some (Value.str s) => s
    | _ => match_id
  let f := robustCalls (oracle sofascored_id)
  match f.1 with
  | none => (st, calls + f.2, success)
  | some match_data =>
    let success := true
    let sd := pyUpper match_data.status_description
    if containsSub sd "FINISHED" || containsSub sd "ENDED" then
      let _final_score :=
        toString (match_data.home_score.getD 0) ++ "-" ++
          toString (match_data.away_score.getD 0)
      let outcome : Option String := none
      let message := ""
      if outcome.isSome && (if outcome = some "error" then false else true) then
        let s := send_telegram st message sendOk
        if s.2 then
          let m := move_to_resolved s.1 match_id bet_info (outcome.getD "") now MoveFail.ok
          ({ m.1 with localTracked := removeK m.1.localTracked match_id },
           calls + f.2, success)
        else (s.1, calls + f.2, success)
      else (st, calls + f.2, success)
    else (st, calls + f.2, success)

/-- `check_and_resolve_stale_bets`: collect the stale set (return at once if
empty), apply the rate gate against the recorded `last_resolution_api_call`
(a missing record counts as `FIXTURE_API_INTERVAL + 1` seconds ago), fold
the per-entity fetch over the stale set, and advance the gate only when at
least one fetch succeeded.  Returns the new state and the number of network
point-lookups performed. -/
def check_and_resolve_stale_bets (st : BotState) (now : Nat)
    (oracle : String → Nat → Option Snapshot) (sendOk : Bool) : BotState × Nat :=
  let stale_bets := get_stale_unresolved_bets st.unresolved now
  if stale_bets.isEmpty then (st, 0)
  else
    let time_since_last_call :=
      match st.lastApiCall with
      | some t => now - t
      | none => FIXTURE_API_INTERVAL + 1
    if time_since_last_call < FIXTURE_API_INTERVAL then (st, 0)
    else
      let r := stale_bets.foldl (sweepStep now oracle sendOk) (st, 0, false)
      if r.2.2 then ({ r.1 with lastApiCall := some now }, r.2.1)
      else (r.1, r.2.1)

/-! ## One live match of one poll cycle (`process_live_match`) -/

/-- The test `minute in MINUTES_REGULAR_BET` (`None` is in no int list). -/
def minuteInWindow : Option Int → Bool
  | some n => n ∈ MINUTES_REGULAR_BET
  | none => false

/-- `process_live_match` for one snapshot: apply the league filters,
normalize the status, build the score string, return early for non-live
phases or a missing minute, upsert the tracked state, then either attempt
the 36-minute bet placement (first half, minute in the trigger window, not
yet evaluated) or run the halftime resolution (halftime and an unresolved
bet exists); finally the dead finished-cleanup branch of the source, kept
verbatim, which is unreachable because a finished status already returned
early. -/
def process_live_match (st : BotState) (m : Snapshot) (now : Nat) (sendOk : Bool) :
    BotState :=
  let fixture_id := m.id
  let match_name := m.home_team ++ " vs " ++ m.away_team
  if excludedByFilters m.league_name m.category_name then st
  else
    let minute := m.total_elapsed_minutes
    let status := normalizeStatus m.status_description
    let score := pyStr m.home_score ++ "-" ++ pyStr m.away_score
    if status ∉ STATUS_LIVE ∧ status ≠ STATUS_HALFTIME then st
    else if minute = none ∧ status ≠ STATUS_HALFTIME then st
    else
      let state := (lookupK st.localTracked fixture_id).getD defaultTrack
      let st1 := { st with localTracked := putK st.localTracked fixture_id state }
      let mi : MatchInfo := ⟨match_name, m.league_name, m.category_name, m.league_id⟩
      let st2 :=
        if status = "1H" ∧ minuteInWindow minute = true ∧ state.betPlaced = false then
          place_regular_bet true true st1 state fixture_id score mi now sendOk
        else if status = STATUS_HALFTIME then
          let r := is_bet_unresolved st1 fixture_id
          if r.1 then check_ht_result r.2 fixture_id score mi now MoveFail.ok sendOk
          else r.2
        else st1
      if status ∈ STATUS_FINISHED then
        let r := is_bet_unresolved st2 fixture_id
        if !r.1 then { r.2 with localTracked := removeK r.2.localTracked fixture_id }
        else r.2
      else st2

/-- The per-cycle loop `for match in live_matches: process_live_match(match)`. -/
def runCycle (st : BotState) (ms : List Snapshot) (now : Nat) (sendOk : Bool) :
    BotState :=
  ms.foldl (fun s m => process_live_match s m now sendOk) st

/-! ## Observation predicates used by the trigger-window analysis -/

/-- The snapshot passes the filters and its normalized phase is first half. -/
def obs1H (m : Snapshot) : Bool :=
  !excludedByFilters m.league_name m.category_name &&
    (normalizeStatus m.status_description == "1H")

/-- The snapshot passes the filters and its normalized phase is halftime. -/
def obsHT (m : Snapshot) : Bool :=
  !excludedByFilters m.league_name m.category_name &&
    (normalizeStatus m.status_description == STATUS_HALFTIME)

/-- An in-window observation: unfiltered, first half, minute 36 or 37. -/
def inWindowObs (m : Snapshot) : Bool :=
  obs1H m && minuteInWindow m.total_elapsed_minutes

/-- No unfiltered first-half observation occurs in the list. -/
def noFirstHalfObs (ms : List Snapshot) : Bool := ms.all (fun m => !obs1H m)

/-- Chronological order of one match's snapshots: once an unfiltered halftime
observation has occurred, no later unfiltered first-half observation occurs. -/
def chronOK : List Snapshot → Bool
  | [] => true
  | m :: ms => (if obsHT m then noFirstHalfObs ms else true) && chronOK ms

/-- The `36_bet_placed` flag of the tracked entry for an entity (default
dictionary when the entity is untracked). -/
def flagOf (st : BotState) (e : String) : Bool :=
  ((lookupK st.localTracked e).getD defaultTrack).betPlaced

/-- The guard of the placement branch of `process_live_match`: the snapshot
is an unfiltered in-window first-half observation of an entity whose window
has not been evaluated yet.  `place_regular_bet` is invoked exactly when
this holds. -/
def evaluatesAt (st : BotState) (m : Snapshot) : Bool :=
  inWindowObs m && !flagOf st m.id

/-- Number of window evaluations (invocations of `place_regular_bet`)
performed while folding a list of snapshots through `process_live_match`. -/
def evalCount (now : Nat) (sendOk : Bool) : BotState → List Snapshot → Nat
  | _, [] => 0
  | st, m :: ms =>
    (if evaluatesAt st m then 1 else 0) +
      evalCount now sendOk (process_live_match st m now sendOk) ms

/-! ## Basic lemmas about the embedded operations -/

theorem is_bet_unresolved_f_snd (dbOk readOk : Bool) (st : BotState) (id : String) :
    ((is_bet_unresolved_f dbOk readOk st id).2.localTracked = st.localTracked ∧
     (is_bet_unresolved_f dbOk readOk st id).2.unresolved = st.unresolved ∧
     (is_bet_unresolved_f dbOk readOk st id).2.resolved = st.resolved ∧
     (is_bet_unresolved_f dbOk readOk st id).2.lastApiCall = st.lastApiCall ∧
     (is_bet_unresolved_f dbOk readOk st id).2.sent = st.sent) := by
  unfold is_bet_unresolved_f
  cases dbOk <;> cases readOk <;>
    cases hc : (lookupK st.cache id).isSome <;> simp [hc] <;>
      cases hu : lookupK st.unresolved id <;> simp [hu]

theorem is_bet_unresolved_empty (st : BotState) (id : String)
    (hc : st.cache = []) (hu : st.unresolved = []) :
    is_bet_unresolved st id = (false, st) := by
  simp [is_bet_unresolved, is_bet_unresolved_f, hc, hu, lookupK]

theorem is_bet_unresolved_false_of_none (st : BotState) (id : String)
    (hc : lookupK st.cache id = none) (hu : lookupK st.unresolved id = none) :
    is_bet_unresolved st id = (false, st) := by
  simp [is_bet_unresolved, is_bet_unresolved_f, hc, hu]

theorem get_unresolved_bet_data_snd (st : BotState) (id : String) :
    ((get_unresolved_bet_data st id).2.localTracked = st.localTracked ∧
     (get_unresolved_bet_data st id).2.unresolved = st.unresolved ∧
     (get_unresolved_bet_data st id).2.resolved = st.resolved ∧
     (get_unresolved_bet_data st id).2.lastApiCall = st.lastApiCall ∧
     (get_unresolved_bet_data st id).2.sent = st.sent) := by
  unfold get_unresolved_bet_data
  cases hc : lookupK st.cache id <;> simp [hc] <;>
    cases hu : lookupK st.unresolved id <;> simp [hu]

theorem get_unresolved_bet_data_none (st : BotState) (id : String)
    (h : (get_unresolved_bet_data st id).1 = none) :
    (get_unresolved_bet_data st id).2 = st ∧
      lookupK st.cache id = none ∧ lookupK st.unresolved id = none := by
  unfold get_unresolved_bet_data at h ⊢
  cases hc : lookupK st.cache id <;> simp [hc] at h ⊢ <;>
    cases hu : lookupK st.unresolved id <;> simp [hu] at h ⊢

/-! ## Claim C2: staking policy -/

/-- The bet document as actually persisted by `add_unresolved_bet` for a
placement: the dict literal of `place_regular_bet` with `placed_at`
re-stamped. -/
def storedBetData (mi : MatchInfo) (score : String) (fixture_id : String)
    (now : Nat) : BetData :=
  dsetK (unresolvedData mi score fixture_id now) "placed_at"
    (Value.int (Int.ofNat now))

/-- Claim C2, counterexample: the alert record created for a qualifying
36-minute score carries neither a `stake` nor a `sequence` field, so no
martingale staking data is attached to any alert. -/
theorem C2_counterexample :
    dgetK ((lookupK (place_regular_bet true true initState defaultTrack "101" "1-1"
        ⟨"Alpha vs Beta", "La Liga", "Spain", 7⟩ 1000 true).unresolved "101").getD [])
      "stake" = none ∧
    dgetK ((lookupK (place_regular_bet true true initState defaultTrack "101" "1-1"
        ⟨"Alpha vs Beta", "La Liga", "Spain", 7⟩ 1000 true).unresolved "101").getD [])
      "sequence" = none ∧
    (lookupK (place_regular_bet true true initState defaultTrack "101" "1-1"
        ⟨"Alpha vs Beta", "La Liga", "Spain", 7⟩ 1000 true).unresolved "101").isSome
      = true := by
  decide

/-- Claim C2, amended: alerts carry no stake and no sequence number at all.
Whenever a placement goes through, the persisted record is exactly the
fixed nine-field document of the source, with `bet_type = regular` and no
staking fields. -/
theorem C2_no_staking_policy (st : BotState) (state : TrackState) (readOk : Bool)
    (fixture score : String) (mi : MatchInfo) (now : Nat) (sendOk : Bool)
    (hno : (is_bet_unresolved_f true readOk st fixture).1 = false)
    (hq : score = "1-1" ∨ score = "2-2" ∨ score = "3-3") :
    lookupK (place_regular_bet true readOk st state fixture score mi now
        sendOk).unresolved fixture = some (storedBetData mi score fixture now) ∧
    dgetK (storedBetData mi score fixture now) "stake" = none ∧
    dgetK (storedBetData mi score fixture now) "sequence" = none ∧
    dgetK (storedBetData mi score fixture now) "bet_type"
      = some (Value.str BET_TYPE_REGULAR) := by
  refine ⟨?_, ?_, ?_, ?_⟩
  · unfold place_regular_bet
    rcases hq with h | h | h <;> subst h <;>
      simp [hno, add_unresolved_bet, send_telegram, storedBetData, lookupK_putK_same]
  · simp [storedBetData, dgetK, dsetK, unresolvedData, putK, removeK, lookupK,
      List.filter]
  · simp [storedBetData, dgetK, dsetK, unresolvedData, putK, removeK, lookupK,
      List.filter]
  · simp [storedBetData, dgetK, dsetK, unresolvedData, putK, removeK, lookupK,
      List.filter]

/-- Claim C2, witness for the amended statement at a concrete placement. -/
theorem C2_witness :
    ((is_bet_unresolved_f true true initState "101").1 = false ∧
      ("1-1" = "1-1" ∨ "1-1" = "2-2" ∨ "1-1" = "3-3")) ∧
    (lookupK (place_regular_bet true true initState defaultTrack "101" "1-1"
        ⟨"Alpha vs Beta", "La Liga", "Spain", 7⟩ 1000 true).unresolved "101"
      = some (storedBetData ⟨"Alpha vs Beta", "La Liga", "Spain", 7⟩ "1-1" "101" 1000) ∧
     dgetK (storedBetData ⟨"Alpha vs Beta", "La Liga", "Spain", 7⟩ "1-1" "101" 1000)
        "stake" = none ∧
     dgetK (storedBetData ⟨"Alpha vs Beta", "La Liga", "Spain", 7⟩ "1-1" "101" 1000)
        "sequence" = none ∧
     dgetK (storedBetData ⟨"Alpha vs Beta", "La Liga", "Spain", 7⟩ "1-1" "101" 1000)
        "bet_type" = some (Value.str BET_TYPE_REGULAR)) :=
  ⟨⟨by decide, Or.inl rfl⟩,
   C2_no_staking_policy initState defaultTrack true "101" "1-1"
     ⟨"Alpha vs Beta", "La Liga", "Spain", 7⟩ 1000 true (by decide) (Or.inl rfl)⟩

/-! ## Claim C9: status normalization priority -/

/-- Claim C9, counterexample: the source tests the first-half keyword before
the checkpoint keyword, so the description `1st Halftime`, which contains
the checkpoint keyword `HALFTIME`, is classified as the still-live phase
`1H`, not as the checkpoint. -/
theorem C9_counterexample :
    normalizeStatus "1st Halftime" = "1H" ∧
    containsSub (pyUpper "1st Halftime") "HALFTIME" = true ∧
    "1H" ∈ STATUS_LIVE ∧ "1H" ≠ STATUS_HALFTIME := by
  decide

/-- Claim C9, amended: normalization maps every description into the closed
set consisting of `1H`, `2H`, `HT`, `FT`, the three extra live literals and
`N/A`; the priority order is first-period, second-period, checkpoint,
finished, so a description containing the checkpoint keyword normalizes to
the checkpoint exactly when it contains neither period keyword. -/
theorem C9_normalization_order :
    (∀ d, normalizeStatus d ∈ ["1H", "2H", "HT", "FT", "LIVE", "ET", "P", "N/A"]) ∧
    (∀ d, containsSub (pyUpper d) "HALFTIME" = true →
      (normalizeStatus d = STATUS_HALFTIME ↔
        containsSub (pyUpper d) "1ST HALF" = false ∧
          containsSub (pyUpper d) "2ND HALF" = false)) := by
  constructor
  · intro d
    simp only [normalizeStatus]
    split_ifs with h1 h2 h3 h4 h5
    · simp
    · simp
    · simp [STATUS_HALFTIME]
    · simp
    · simp [STATUS_LIVE] at h5 ⊢
      rcases h5 with h | h | h | h | h <;> simp [h]
    · simp
  · intro d hHT
    simp only [normalizeStatus]
    split_ifs with h1 h2 h3 h4 h5 <;> simp_all [STATUS_HALFTIME]

/-- Claim C9, witness: the plain checkpoint description normalizes to the
checkpoint phase via the amended characterization. -/
theorem C9_witness :
    containsSub (pyUpper "Halftime") "HALFTIME" = true ∧
    (normalizeStatus "Halftime" = STATUS_HALFTIME ↔
      containsSub (pyUpper "Halftime") "1ST HALF" = false ∧
        containsSub (pyUpper "Halftime") "2ND HALF" = false) :=
  ⟨by decide, C9_normalization_order.2 "Halftime" (by decide)⟩

end Sofa

namespace Sofa

/-! ## Claim C8: atomicity of the move to the closed set -/

/-- Claim C8, counterexample: `move_to_resolved` performs the closed-set
write and the open-set delete as two separate operations inside one
exception handler; a failure at the delete (after a successful write)
returns `False` but leaves the alert present in both the open and the
closed set, so the Ledger state is changed by a failed move. -/
theorem C8_counterexample :
    (move_to_resolved
        ⟨[], [("7", [("bet_type", Value.str "regular"), ("36_score", Value.str "1-1")])],
          [], [], none, []⟩
        "7" [("bet_type", Value.str "regular"), ("36_score", Value.str "1-1")]
        "loss" 50 MoveFail.onDelete).2 = false ∧
    (lookupK (move_to_resolved
        ⟨[], [("7", [("bet_type", Value.str "regular"), ("36_score", Value.str "1-1")])],
          [], [], none, []⟩
        "7" [("bet_type", Value.str "regular"), ("36_score", Value.str "1-1")]
        "loss" 50 MoveFail.onDelete).1.unresolved "7").isSome = true ∧
    (lookupK (move_to_resolved
        ⟨[], [("7", [("bet_type", Value.str "regular"), ("36_score", Value.str "1-1")])],
          [], [], none, []⟩
        "7" [("bet_type", Value.str "regular"), ("36_score", Value.str "1-1")]
        "loss" 50 MoveFail.onDelete).1.resolved "7").isSome = true := by
  decide

/-- Claim C8, amended: each individual write of the move is atomic and the
alert is never left absent from both sets, but the move of an alert from
open to closed is not atomic as a pair: a failure before the closed-set
write leaves the Ledger unchanged, while a failure at the open-set delete
leaves the alert present in both sets. -/
theorem C8_move_atomicity (st : BotState) (id : String) (bet : BetData)
    (outcome : String) (now : Nat)
    (h : lookupK st.unresolved id = some bet) :
    (move_to_resolved st id bet outcome now MoveFail.onSet = (st, false)) ∧
    (lookupK (move_to_resolved st id bet outcome now MoveFail.onDelete).1.unresolved id
        = some bet ∧
      lookupK (move_to_resolved st id bet outcome now MoveFail.onDelete).1.resolved id
        = some (resolvedData bet outcome now) ∧
      (move_to_resolved st id bet outcome now MoveFail.onDelete).2 = false) ∧
    (lookupK (move_to_resolved st id bet outcome now MoveFail.ok).1.unresolved id
        = none ∧
      lookupK (move_to_resolved st id bet outcome now MoveFail.ok).1.resolved id
        = some (resolvedData bet outcome now) ∧
      (move_to_resolved st id bet outcome now MoveFail.ok).2 = true) ∧
    (∀ f : MoveFail,
      ¬(lookupK (move_to_resolved st id bet outcome now f).1.unresolved id = none ∧
        lookupK (move_to_resolved st id bet outcome now f).1.resolved id = none)) := by
  refine ⟨rfl, ⟨?_, ?_, rfl⟩, ⟨?_, ?_, rfl⟩, ?_⟩
  · simpa [move_to_resolved] using h
  · simp [move_to_resolved, lookupK_putK_same]
  · simp [move_to_resolved, lookupK_removeK_same]
  · simp [move_to_resolved, lookupK_putK_same]
  · intro f
    cases f <;> simp [move_to_resolved, lookupK_putK_same, h]

/-- Claim C8, witness for the amended statement at a concrete failed move. -/
theorem C8_witness :
    lookupK (⟨[], [("7", [("bet_type", Value.str "regular")])], [], [], none, []⟩ :
        BotState).unresolved "7" = some [("bet_type", Value.str "regular")] ∧
    lookupK (move_to_resolved
        ⟨[], [("7", [("bet_type", Value.str "regular")])], [], [], none, []⟩
        "7" [("bet_type", Value.str "regular")] "loss" 50 MoveFail.onDelete).1.unresolved
        "7" = some [("bet_type", Value.str "regular")] :=
  ⟨by decide,
   (C8_move_atomicity
      ⟨[], [("7", [("bet_type", Value.str "regular")])], [], [], none, []⟩
      "7" [("bet_type", Value.str "regular")] "loss" 50 (by decide)).2.1.1⟩

/-! ## Claim C10: failed reads report no open alert -/

/-- Claim C10: with the database handle absent, or with the Firestore read
raising on a cache miss, `is_bet_unresolved` reports `False` even though an
unresolved bet document exists; consequently `place_regular_bet` skips the
duplicate guard and writes a fresh alert document over the existing one. -/
theorem C10_read_failure_bypasses_guard (st : BotState) (state : TrackState)
    (oldBet : BetData) (fixture score : String) (mi : MatchInfo) (now : Nat)
    (sendOk : Bool)
    (hc : lookupK st.cache fixture = none)
    (hu : lookupK st.unresolved fixture = some oldBet)
    (hq : score = "1-1" ∨ score = "2-2" ∨ score = "3-3") :
    (is_bet_unresolved_f false true st fixture).1 = false ∧
    (is_bet_unresolved_f true false st fixture).1 = false ∧
    lookupK (place_regular_bet true false st state fixture score mi now
        sendOk).unresolved fixture = some (storedBetData mi score fixture now) := by
  have hguard : (is_bet_unresolved_f true false st fixture).1 = false := by
    simp [is_bet_unresolved_f, hc]
  refine ⟨by simp [is_bet_unresolved_f], hguard, ?_⟩
  unfold place_regular_bet
  rcases hq with h | h | h <;> subst h <;>
    simp [hguard, add_unresolved_bet, send_telegram, storedBetData, lookupK_putK_same]

/-- Claim C10, witness: a state whose store holds a bet for fixture `5`
that is not cached; the failing read reports no bet, and the placement
overwrites the stored document. -/
theorem C10_witness :
    (lookupK (⟨[], [("5", [("bet_type", Value.str "regular")])], [], [], none, []⟩ :
        BotState).cache "5" = none ∧
     lookupK (⟨[], [("5", [("bet_type", Value.str "regular")])], [], [], none, []⟩ :
        BotState).unresolved "5" = some [("bet_type", Value.str "regular")]) ∧
    (is_bet_unresolved_f true false
        ⟨[], [("5", [("bet_type", Value.str "regular")])], [], [], none, []⟩ "5").1
      = false ∧
    lookupK (place_regular_bet true false
        ⟨[], [("5", [("bet_type", Value.str "regular")])], [], [], none, []⟩
        defaultTrack "5" "2-2" ⟨"A vs B", "L", "C", 3⟩ 77 true).unresolved "5"
      = some (storedBetData ⟨"A vs B", "L", "C", 3⟩ "2-2" "5" 77) :=
  ⟨⟨by decide, by decide⟩,
   ((C10_read_failure_bypasses_guard
      ⟨[], [("5", [("bet_type", Value.str "regular")])], [], [], none, []⟩
      defaultTrack [("bet_type", Value.str "regular")] "5" "2-2"
      ⟨"A vs B", "L", "C", 3⟩ 77 true (by decide) (by decide)
      (Or.inr (Or.inl rfl))).2.1),
   ((C10_read_failure_bypasses_guard
      ⟨[], [("5", [("bet_type", Value.str "regular")])], [], [], none, []⟩
      defaultTrack [("bet_type", Value.str "regular")] "5" "2-2"
      ⟨"A vs B", "L", "C", 3⟩ 77 true (by decide) (by decide)
      (Or.inr (Or.inl rfl))).2.2)⟩

end Sofa

namespace Sofa

/-! ## Sweep structure lemmas -/

theorem sweepStep_fst (now : Nat) (oracle : String → Nat → Option Snapshot)
    (sendOk : Bool) (acc : BotState × Nat × Bool) (entry : String × BetData) :
    (sweepStep now oracle sendOk acc entry).1 = acc.1 := by
  simp only [sweepStep]
  split <;> simp

theorem sweep_foldl_fst (now : Nat) (oracle : String → Nat → Option Snapshot)
    (sendOk : Bool) (l : List (String × BetData)) (acc : BotState × Nat × Bool) :
    (l.foldl (sweepStep now oracle sendOk) acc).1 = acc.1 := by
  induction l generalizing acc with
  | nil => rfl
  | cons e rest ih =>
    rw [List.foldl_cons, ih, sweepStep_fst]

/-! ## Claim C3: the sweep never resolves anything -/

/-- Claim C3, counterexample: a stale open alert (non-regular type, placed
long ago) for which the sweep fetches an authoritative `FINISHED` state is
nonetheless left unresolved: it stays in the open set and never reaches the
closed set, because the sweep assigns no outcome to any bet type. -/
theorem C3_counterexample :
    get_stale_unresolved_bets
        [("9", [("bet_type", Value.str "32_over"), ("placed_at", Value.int 0),
          ("sofascored_id", Value.str "9")])] 100000
      = [("9", [("bet_type", Value.str "32_over"), ("placed_at", Value.int 0),
          ("sofascored_id", Value.str "9")])] ∧
    lookupK (check_and_resolve_stale_bets
        ⟨[], [("9", [("bet_type", Value.str "32_over"), ("placed_at", Value.int 0),
          ("sofascored_id", Value.str "9")])], [], [], none, []⟩
        100000 (fun _ _ => some ⟨"9", "A", "B", "X", "Y", 1, some 90,
          "Match Finished", some 2, some 0⟩) true).1.unresolved "9"
      = some [("bet_type", Value.str "32_over"), ("placed_at", Value.int 0),
          ("sofascored_id", Value.str "9")] ∧
    lookupK (check_and_resolve_stale_bets
        ⟨[], [("9", [("bet_type", Value.str "32_over"), ("placed_at", Value.int 0),
          ("sofascored_id", Value.str "9")])], [], [], none, []⟩
        100000 (fun _ _ => some ⟨"9", "A", "B", "X", "Y", 1, some 90,
          "Match Finished", some 2, some 0⟩) true).1.resolved "9"
      = none := by
  decide

/-- Claim C3, amended: the reconciliation sweep resolves nothing at all.
For every state, clock, fetch oracle and notification outcome, the sweep
leaves the open set, the closed set, the cache, the local tracking store
and the sent messages exactly unchanged; the only state it may touch is the
rate-gate timestamp.  Stale alerts in a terminal phase therefore stay open
forever and the sweep never releases anything. -/
theorem C3_sweep_resolves_nothing (st : BotState) (now : Nat)
    (oracle : String → Nat → Option Snapshot) (sendOk : Bool) :
    (check_and_resolve_stale_bets st now oracle sendOk).1.unresolved = st.unresolved ∧
    (check_and_resolve_stale_bets st now oracle sendOk).1.resolved = st.resolved ∧
    (check_and_resolve_stale_bets st now oracle sendOk).1.cache = st.cache ∧
    (check_and_resolve_stale_bets st now oracle sendOk).1.localTracked = st.localTracked ∧
    (check_and_resolve_stale_bets st now oracle sendOk).1.sent = st.sent := by
  simp only [check_and_resolve_stale_bets]
  split_ifs with h1 h2 h3 <;>
    simp [sweep_foldl_fst]

/-! ## Claim C5: notification failure never blocks the Ledger mutation -/

/-- Claim C5: the resolution mutations are independent of the notification
outcome.  `check_ht_result` moves the bet before sending and discards the
send result, and the sweep sends nothing at all, so flipping the delivery
outcome changes no state whatsoever in either resolution path. -/
theorem C5_notification_independent :
    (∀ (st : BotState) (fixture score : String) (mi : MatchInfo) (now : Nat)
        (fail : MoveFail),
      check_ht_result st fixture score mi now fail true =
        check_ht_result st fixture score mi now fail false) ∧
    (∀ (st : BotState) (now : Nat) (oracle : String → Nat → Option Snapshot),
      check_and_resolve_stale_bets st now oracle true =
        check_and_resolve_stale_bets st now oracle false) := by
  constructor
  · intro st fixture score mi now fail
    rfl
  · intro st now oracle
    have hstep : sweepStep now oracle true = sweepStep now oracle false := by
      funext acc entry
      simp only [sweepStep]
      split <;> simp
    unfold check_and_resolve_stale_bets
    rw [hstep]

/-! ## Claim C6: the reconciliation rate gate -/

/-- Claim C6, counterexample: two reconciler invocations 60 seconds apart,
each with one stale alert pending and every fetch failing, perform 4 network
point-lookups each (3 retries plus the post-restart attempt): the failed
first sweep does not record the gate, so the second sweep repeats the
lookups well inside the minimum interval, for 8 lookups on one stale entity. -/
theorem C6_counterexample :
    (check_and_resolve_stale_bets
        ⟨[], [("9", [("bet_type", Value.str "32_over"), ("placed_at", Value.int 0),
          ("sofascored_id", Value.str "9")])], [], [], none, []⟩
        100000 (fun _ _ => none) true).2 = 4 ∧
    (check_and_resolve_stale_bets
        (check_and_resolve_stale_bets
          ⟨[], [("9", [("bet_type", Value.str "32_over"), ("placed_at", Value.int 0),
            ("sofascored_id", Value.str "9")])], [], [], none, []⟩
          100000 (fun _ _ => none) true).1
        100060 (fun _ _ => none) true).2 = 4 ∧
    100060 - 100000 < FIXTURE_API_INTERVAL := by
  decide

/-- Claim C6, amended: the gate protects only against the last recorded
API call.  While the recorded timestamp is less than the minimum interval
old, a sweep performs zero point-lookups and changes nothing; in particular
once a sweep has recorded the gate (which happens exactly when at least one
of its fetches succeeded), any reconciler invocation within the interval is
inert.  A fully failed sweep records nothing, so its lookups may be
repeated within the interval, and one sweep may make up to four lookups
per stale entity because of retries. -/
theorem C6_rate_gate :
    (∀ (st : BotState) (now t : Nat) (oracle : String → Nat → Option Snapshot)
        (sendOk : Bool), st.lastApiCall = some t → now - t < FIXTURE_API_INTERVAL →
      check_and_resolve_stale_bets st now oracle sendOk = (st, 0)) ∧
    (∀ (st : BotState) (t0 t1 : Nat)
        (oracle oracle2 : String → Nat → Option Snapshot) (s1 s2 : Bool),
      (check_and_resolve_stale_bets st t0 oracle s1).1.lastApiCall = some t0 →
      t1 - t0 < FIXTURE_API_INTERVAL →
      check_and_resolve_stale_bets (check_and_resolve_stale_bets st t0 oracle s1).1 t1
          oracle2 s2 = ((check_and_resolve_stale_bets st t0 oracle s1).1, 0)) := by
  have base : ∀ (st : BotState) (now t : Nat) (oracle : String → Nat → Option Snapshot)
      (sendOk : Bool), st.lastApiCall = some t → now - t < FIXTURE_API_INTERVAL →
      check_and_resolve_stale_bets st now oracle sendOk = (st, 0) := by
    intro st now t oracle sendOk hgate hrecent
    simp only [check_and_resolve_stale_bets]
    split_ifs with h1 h2 h3
    · rfl
    · rfl
    · rw [hgate] at h2
      exact absurd hrecent h2
    · rw [hgate] at h2
      exact absurd hrecent h2
  exact ⟨base, fun st t0 t1 oracle oracle2 s1 s2 hg hr =>
    base _ t1 t0 oracle2 s2 hg hr⟩

/-- Claim C6, witness: applying both parts of the gate theorem at concrete
states: a recent recorded gate makes the sweep inert, and a successful
sweep records the gate so that a second sweep 60 seconds later is inert. -/
theorem C6_witness :
    ((⟨[], [("9", [("bet_type", Value.str "32_over"), ("placed_at", Value.int 0),
        ("sofascored_id", Value.str "9")])], [], [], some 100, []⟩ :
        BotState).lastApiCall = some 100 ∧ 200 - 100 < FIXTURE_API_INTERVAL) ∧
    check_and_resolve_stale_bets
        ⟨[], [("9", [("bet_type", Value.str "32_over"), ("placed_at", Value.int 0),
          ("sofascored_id", Value.str "9")])], [], [], some 100, []⟩
        200 (fun _ _ => none) true
      = (⟨[], [("9", [("bet_type", Value.str "32_over"), ("placed_at", Value.int 0),
          ("sofascored_id", Value.str "9")])], [], [], some 100, []⟩, 0) ∧
    ((check_and_resolve_stale_bets
        ⟨[], [("9", [("bet_type", Value.str "32_over"), ("placed_at", Value.int 0),
          ("sofascored_id", Value.str "9")])], [], [], none, []⟩
        100000 (fun _ _ => some ⟨"9", "A", "B", "X", "Y", 1, some 90,
          "Match Finished", some 2, some 0⟩) true).1.lastApiCall = some 100000 ∧
      100060 - 100000 < FIXTURE_API_INTERVAL) ∧
    check_and_resolve_stale_bets
        (check_and_resolve_stale_bets
          ⟨[], [("9", [("bet_type", Value.str "32_over"), ("placed_at", Value.int 0),
            ("sofascored_id", Value.str "9")])], [], [], none, []⟩
          100000 (fun _ _ => some ⟨"9", "A", "B", "X", "Y", 1, some 90,
            "Match Finished", some 2, some 0⟩) true).1
        100060 (fun _ _ => none) false
      = ((check_and_resolve_stale_bets
          ⟨[], [("9", [("bet_type", Value.str "32_over"), ("placed_at", Value.int 0),
            ("sofascored_id", Value.str "9")])], [], [], none, []⟩
          100000 (fun _ _ => some ⟨"9", "A", "B", "X", "Y", 1, some 90,
            "Match Finished", some 2, some 0⟩) true).1, 0) :=
  ⟨⟨rfl, by decide⟩,
   C6_rate_gate.1 _ 200 100 (fun _ _ => none) true rfl (by decide),
   ⟨by decide, by decide⟩,
   C6_rate_gate.2 _ 100000 100060 _ (fun _ _ => none) true false (by decide)
     (by decide)⟩

end Sofa

namespace Sofa

/-! ## Claim C1: the lock is per-entity, not global -/

/-- Claim C1, counterexample: in one poll cycle two different entities both
trigger (minutes 36 and 37, qualifying draw scores) and both placements go
through: two OpenAlert records exist at once, so the number of open alerts
exceeds one and the second placement was not suppressed by the first. -/
theorem C1_counterexample :
    (lookupK (runCycle initState
        [⟨"101", "Alpha", "Beta", "La Liga", "Spain", 7, some 36, "1st half",
          some 1, some 1⟩,
         ⟨"102", "Gamma", "Delta", "La Liga", "Spain", 7, some 37, "1st half",
          some 2, some 2⟩] 1000 true).unresolved "101").isSome = true ∧
    (lookupK (runCycle initState
        [⟨"101", "Alpha", "Beta", "La Liga", "Spain", 7, some 36, "1st half",
          some 1, some 1⟩,
         ⟨"102", "Gamma", "Delta", "La Liga", "Spain", 7, some 37, "1st half",
          some 2, some 2⟩] 1000 true).unresolved "102").isSome = true ∧
    (runCycle initState
        [⟨"101", "Alpha", "Beta", "La Liga", "Spain", 7, some 36, "1st half",
          some 1, some 1⟩,
         ⟨"102", "Gamma", "Delta", "La Liga", "Spain", 7, some 37, "1st half",
          some 2, some 2⟩] 1000 true).unresolved.length = 2 := by
  decide

/-- Claim C1, amended: the suppression guard is per entity only.  A
placement is suppressed exactly when an unresolved bet exists for the same
fixture; an open alert on a different entity does not suppress a placement,
so several open alerts can exist simultaneously. -/
theorem C1_per_entity_lock_only :
    (∀ (st : BotState) (state : TrackState) (dbOk readOk : Bool)
        (fixture score : String) (mi : MatchInfo) (now : Nat) (sendOk : Bool),
      (is_bet_unresolved_f dbOk readOk st fixture).1 = true →
      (place_regular_bet dbOk readOk st state fixture score mi now sendOk).unresolved
        = st.unresolved) ∧
    (∀ (st : BotState) (state : TrackState) (e1 e2 score : String) (b : BetData)
        (mi : MatchInfo) (now : Nat) (sendOk : Bool),
      e1 ≠ e2 →
      lookupK st.unresolved e1 = some b →
      lookupK st.cache e2 = none → lookupK st.unresolved e2 = none →
      (score = "1-1" ∨ score = "2-2" ∨ score = "3-3") →
      lookupK (place_regular_bet true true st state e2 score mi now sendOk).unresolved
          e1 = some b ∧
      lookupK (place_regular_bet true true st state e2 score mi now sendOk).unresolved
          e2 = some (storedBetData mi score e2 now)) := by
  constructor
  · intro st state dbOk readOk fixture score mi now sendOk htrue
    have hsnd := (is_bet_unresolved_f_snd dbOk readOk st fixture).2.1
    simp only [place_regular_bet, htrue, if_true]
    split_ifs <;> simp [hsnd]
  · intro st state e1 e2 score b mi now sendOk hne h1 hc hu hq
    have hp : is_bet_unresolved_f true true st e2 = (false, st) := by
      simpa [is_bet_unresolved] using is_bet_unresolved_false_of_none st e2 hc hu
    unfold place_regular_bet
    rcases hq with h | h | h <;> subst h <;>
      constructor <;>
        simp [hp, add_unresolved_bet, send_telegram, storedBetData,
          lookupK_putK_same, lookupK_putK_other _ _ _ _ (Ne.symm hne), h1]

/-- Claim C1, witness for the amended statement: with an open alert on
entity `101` and none on `102`, placement for `101` is suppressed while a
qualifying placement for `102` succeeds, leaving both alerts open. -/
theorem C1_witness :
    ((is_bet_unresolved_f true true
        ⟨[], [("101", [("bet_type", Value.str "regular")])], [], [], none, []⟩
        "101").1 = true ∧
      (place_regular_bet true true
        ⟨[], [("101", [("bet_type", Value.str "regular")])], [], [], none, []⟩
        defaultTrack "101" "1-1" ⟨"A vs B", "L", "C", 3⟩ 50 true).unresolved
        = [("101", [("bet_type", Value.str "regular")])]) ∧
    (lookupK (place_regular_bet true true
        ⟨[], [("101", [("bet_type", Value.str "regular")])], [], [], none, []⟩
        defaultTrack "102" "2-2" ⟨"G vs D", "L", "C", 3⟩ 50 true).unresolved "101"
      = some [("bet_type", Value.str "regular")] ∧
     lookupK (place_regular_bet true true
        ⟨[], [("101", [("bet_type", Value.str "regular")])], [], [], none, []⟩
        defaultTrack "102" "2-2" ⟨"G vs D", "L", "C", 3⟩ 50 true).unresolved "102"
      = some (storedBetData ⟨"G vs D", "L", "C", 3⟩ "2-2" "102" 50)) :=
  ⟨⟨by decide,
    C1_per_entity_lock_only.1
      ⟨[], [("101", [("bet_type", Value.str "regular")])], [], [], none, []⟩
      defaultTrack true true "101" "1-1" ⟨"A vs B", "L", "C", 3⟩ 50 true (by decide)⟩,
   C1_per_entity_lock_only.2
      ⟨[], [("101", [("bet_type", Value.str "regular")])], [], [], none, []⟩
      defaultTrack "101" "102" "2-2" [("bet_type", Value.str "regular")]
      ⟨"G vs D", "L", "C", 3⟩ 50 true (by decide) (by decide) (by decide) (by decide)
      (Or.inr (Or.inl rfl))⟩

end Sofa

namespace Sofa

/-! ## Claim C4: the checkpoint fast-path resolution contract -/

/-- Claim C4: halftime resolution.  When no unresolved bet document exists
for the entity, `check_ht_result` is a NoOp on the Ledger and sends nothing.
When a bet exists (with the only alert type the system creates, `regular`,
whose recorded trigger score is `trig`), the outcome is `win` exactly when
the checkpoint score equals `trig` and `loss` otherwise; the closed record
is the open record plus outcome, timestamp and server timestamp; the open
record is deleted; and exactly one notification is emitted. -/
theorem C4_checkpoint_contract (st : BotState) (fixture score trig : String)
    (mi : MatchInfo) (now : Nat) (sendOk : Bool) :
    ((get_unresolved_bet_data st fixture).1 = none →
      ((check_ht_result st fixture score mi now MoveFail.ok sendOk).unresolved
          = st.unresolved ∧
        (check_ht_result st fixture score mi now MoveFail.ok sendOk).resolved
          = st.resolved ∧
        (check_ht_result st fixture score mi now MoveFail.ok sendOk).sent
          = st.sent)) ∧
    (∀ bet : BetData, (get_unresolved_bet_data st fixture).1 = some bet →
      dgetK bet "bet_type" = some (Value.str BET_TYPE_REGULAR) →
      dgetK bet "36_score" = some (Value.str trig) →
      (lookupK (check_ht_result st fixture score mi now MoveFail.ok
            sendOk).unresolved fixture = none ∧
        lookupK (check_ht_result st fixture score mi now MoveFail.ok
            sendOk).resolved fixture
          = some (resolvedData bet (if score = trig then "win" else "loss") now) ∧
        (check_ht_result st fixture score mi now MoveFail.ok sendOk).sent.length
          = st.sent.length + 1)) := by
  constructor
  · intro hnone
    obtain ⟨hq2, hc, hu⟩ := get_unresolved_bet_data_none st fixture hnone
    simp [check_ht_result, hnone, hq2,
      is_bet_unresolved_false_of_none st fixture hc hu]
  · intro bet hbet htype htrig
    have hsnd := get_unresolved_bet_data_snd st fixture
    simp only [check_ht_result, hbet, htype, htrig, if_true]
    simp only [move_to_resolved, send_telegram]
    simp only [is_bet_unresolved, is_bet_unresolved_f]
    simp [lookupK_removeK_same, lookupK_putK_same,
      hsnd.2.1, hsnd.2.2.1, hsnd.2.2.2.2]

/-- Claim C4, witness: a concrete halftime resolution of a regular bet with
trigger score `1-1` at checkpoint score `1-1` (a win). -/
theorem C4_witness :
    ((get_unresolved_bet_data
        ⟨[("5", ⟨true, some "1-1"⟩)],
         [("5", [("bet_type", Value.str "regular"), ("36_score", Value.str "1-1")])],
         [], [], none, []⟩ "5").1
      = some [("bet_type", Value.str "regular"), ("36_score", Value.str "1-1")] ∧
     dgetK [("bet_type", Value.str "regular"), ("36_score", Value.str "1-1")]
        "bet_type" = some (Value.str BET_TYPE_REGULAR) ∧
     dgetK [("bet_type", Value.str "regular"), ("36_score", Value.str "1-1")]
        "36_score" = some (Value.str "1-1")) ∧
    (lookupK (check_ht_result
        ⟨[("5", ⟨true, some "1-1"⟩)],
         [("5", [("bet_type", Value.str "regular"), ("36_score", Value.str "1-1")])],
         [], [], none, []⟩ "5" "1-1" ⟨"A vs B", "L", "C", 3⟩ 60 MoveFail.ok
        true).unresolved "5" = none ∧
     lookupK (check_ht_result
        ⟨[("5", ⟨true, some "1-1"⟩)],
         [("5", [("bet_type", Value.str "regular"), ("36_score", Value.str "1-1")])],
         [], [], none, []⟩ "5" "1-1" ⟨"A vs B", "L", "C", 3⟩ 60 MoveFail.ok
        true).resolved "5"
      = some (resolvedData
          [("bet_type", Value.str "regular"), ("36_score", Value.str "1-1")]
          (if "1-1" = "1-1" then "win" else "loss") 60) ∧
     (check_ht_result
        ⟨[("5", ⟨true, some "1-1"⟩)],
         [("5", [("bet_type", Value.str "regular"), ("36_score", Value.str "1-1")])],
         [], [], none, []⟩ "5" "1-1" ⟨"A vs B", "L", "C", 3⟩ 60 MoveFail.ok
        true).sent.length
      = (⟨[("5", ⟨true, some "1-1"⟩)],
         [("5", [("bet_type", Value.str "regular"), ("36_score", Value.str "1-1")])],
         [], [], none, []⟩ : BotState).sent.length + 1) :=
  ⟨⟨by decide, by decide, by decide⟩,
   (C4_checkpoint_contract
      ⟨[("5", ⟨true, some "1-1"⟩)],
       [("5", [("bet_type", Value.str "regular"), ("36_score", Value.str "1-1")])],
       [], [], none, []⟩ "5" "1-1" "1-1" ⟨"A vs B", "L", "C", 3⟩ 60 true).2
      [("bet_type", Value.str "regular"), ("36_score", Value.str "1-1")]
      (by decide) (by decide) (by decide)⟩

end Sofa

namespace Sofa

/-! ## Claim C7: trigger-window exactness

The supporting lemmas follow the per-phase shape of the state machine:
before the first in-window observation the entity is clean (no stored bet,
empty cache, flag down); the first in-window observation raises the flag
and is the unique evaluation; once the flag is up no further evaluation
happens, and the flag can only disappear at a halftime observation, after
which a chronological run contains no further first-half observation. -/

theorem statusLive_not_finished {s : String} (h : s ∈ STATUS_LIVE) :
    s ∉ STATUS_FINISHED := by
  simp [STATUS_LIVE] at h
  rcases h with h | h | h | h | h <;> subst h <;> decide

theorem minuteInWindow_ne_none {o : Option Int} (h : minuteInWindow o = true) :
    o ≠ none := by
  cases o <;> simp_all [minuteInWindow]

/-- The entity is clean: no bet document stored for it anywhere, no cache
entry, and the evaluation flag is down. -/
def Clean0 (st : BotState) (e : String) : Prop :=
  st.unresolved = [] ∧ st.cache = [] ∧ flagOf st e = false

theorem clean0_initState (e : String) : Clean0 initState e := by
  refine ⟨rfl, rfl, ?_⟩
  simp [flagOf, initState, lookupK, defaultTrack]

/-- Once suppressed or placed, `place_regular_bet` always raises the flag
when the duplicate guard reported no existing bet. -/
theorem flagOf_place_of_false (dbOk readOk : Bool) (st : BotState)
    (state : TrackState) (e score : String) (mi : MatchInfo) (now : Nat)
    (sendOk : Bool) (h : (is_bet_unresolved_f dbOk readOk st e).1 = false) :
    flagOf (place_regular_bet dbOk readOk st state e score mi now sendOk) e
      = true := by
  cases dbOk <;>
    [skip; skip] <;>
    (simp only [place_regular_bet, h]
     split_ifs <;>
       simp_all [flagOf, add_unresolved_bet, send_telegram, lookupK_putK_same])

end Sofa

namespace Sofa

/-- With the flag up and no unfiltered halftime observation, one processing
step keeps the flag up (the placement branch is guarded by the flag, only
the halftime path can delete the tracked entry, and the finished cleanup is
unreachable because a finished status returns early). -/
theorem placed_step (st : BotState) (m : Snapshot) (now : Nat) (sendOk : Bool)
    (hflag : flagOf st m.id = true) (hht : obsHT m = false) :
    flagOf (process_live_match st m now sendOk) m.id = true := by
  by_cases hex : excludedByFilters m.league_name m.category_name = true
  · simp [process_live_match, hex, hflag]
  · have hex' : excludedByFilters m.league_name m.category_name = false := by
      simpa using hex
    have hns : ¬ normalizeStatus m.status_description = STATUS_HALFTIME := by
      simp [obsHT, hex'] at hht
      exact hht
    simp only [process_live_match]
    split_ifs <;>
      simp_all [flagOf, lookupK_putK_same, statusLive_not_finished]

end Sofa

namespace Sofa

/-- A clean entity observed outside the window stays clean and is not
evaluated at this step. -/
theorem clean_step (st : BotState) (m : Snapshot) (now : Nat) (sendOk : Bool)
    (hcl : Clean0 st m.id) (hwin : inWindowObs m = false) :
    evaluatesAt st m = false ∧ Clean0 (process_live_match st m now sendOk) m.id := by
  obtain ⟨hu, hc, hf⟩ := hcl
  refine ⟨by simp [evaluatesAt, hwin], ?_⟩
  simp only [process_live_match]
  split_ifs <;>
    constructor <;>
      simp_all [Clean0, flagOf, lookupK_putK_same, lookupK_removeK_same,
        statusLive_not_finished, STATUS_HALFTIME, STATUS_FINISHED, defaultTrack,
        inWindowObs, obs1H, is_bet_unresolved, is_bet_unresolved_f, lookupK]

end Sofa

namespace Sofa

/-- A clean entity observed inside the window is evaluated at this step and
comes out with the flag up. -/
theorem eval_step (st : BotState) (m : Snapshot) (now : Nat) (sendOk : Bool)
    (hcl : Clean0 st m.id) (hwin : inWindowObs m = true) :
    evaluatesAt st m = true ∧
      flagOf (process_live_match st m now sendOk) m.id = true := by
  obtain ⟨hu, hc, hf⟩ := hcl
  refine ⟨by simp [evaluatesAt, hwin, flagOf] at hf ⊢; simp [hwin, hf], ?_⟩
  have hwin' := hwin
  simp only [inWindowObs, obs1H, Bool.and_eq_true, Bool.not_eq_eq_eq_not,
    Bool.not_true, beq_iff_eq] at hwin'
  obtain ⟨⟨hex', h1H⟩, hmw⟩ := hwin'
  have hmn : m.total_elapsed_minutes ≠ none := minuteInWindow_ne_none hmw
  have hlive : normalizeStatus m.status_description ∈ STATUS_LIVE := by
    rw [h1H]; decide
  have hfB : ((lookupK st.localTracked m.id).getD defaultTrack).betPlaced = false := hf
  simp only [process_live_match]
  rw [if_neg (by simp [hex'] : ¬ excludedByFilters m.league_name m.category_name = true)]
  rw [if_neg (fun h => h.1 hlive)]
  rw [if_neg (fun h => hmn h.1)]
  rw [if_neg (by rw [h1H]; decide :
    ¬ normalizeStatus m.status_description ∈ STATUS_FINISHED)]
  rw [if_pos ⟨h1H, hmw, hfB⟩]
  apply flagOf_place_of_false
  simp [is_bet_unresolved_f, hu, hc, lookupK]

end Sofa

namespace Sofa

/-- A run without any unfiltered first-half observation performs no window
evaluation from any state. -/
theorem evalCount_zero_of_noFirstHalf (now : Nat) (sendOk : Bool) :
    ∀ (ms : List Snapshot), noFirstHalfObs ms = true →
      ∀ st : BotState, evalCount now sendOk st ms = 0 := by
  intro ms
  induction ms with
  | nil => intro _ st; rfl
  | cons m rest ih =>
    intro h st
    simp only [noFirstHalfObs, List.all_cons, Bool.and_eq_true] at h
    have hm : obs1H m = false := by simpa using h.1
    have hev : evaluatesAt st m = false := by
      simp [evaluatesAt, inWindowObs, hm]
    have hrest : noFirstHalfObs rest = true := h.2
    simp [evalCount, hev, ih hrest]

/-- Once the flag is up, a chronological run of the same entity performs no
further window evaluation. -/
theorem evalCount_zero_of_placed (now : Nat) (sendOk : Bool) (e : String) :
    ∀ (ms : List Snapshot) (st : BotState), (∀ m ∈ ms, m.id = e) →
      chronOK ms = true → flagOf st e = true →
      evalCount now sendOk st ms = 0 := by
  intro ms
  induction ms with
  | nil => intro st _ _ _; rfl
  | cons m rest ih =>
    intro st hid hch hflag
    have hme : m.id = e := hid m (List.mem_cons_self m rest)
    have hev : evaluatesAt st m = false := by
      simp [evaluatesAt, hme, hflag]
    simp only [chronOK, Bool.and_eq_true] at hch
    by_cases hht : obsHT m = true
    · have hnol : noFirstHalfObs rest = true := by
        have h1 := hch.1
        simpa [hht] using h1
      simp [evalCount, hev, evalCount_zero_of_noFirstHalf now sendOk rest hnol]
    · have hht' : obsHT m = false := by simpa using hht
      have hflag' : flagOf (process_live_match st m now sendOk) e = true := by
        rw [← hme] at hflag ⊢
        exact placed_step st m now sendOk hflag hht'
      simp [evalCount, hev,
        ih (process_live_match st m now sendOk)
          (fun x hx => hid x (List.mem_cons_of_mem m hx)) hch.2 hflag']

/-- From a clean entity, a chronological run containing at least one
in-window observation performs exactly one window evaluation. -/
theorem evalCount_one_of_clean (now : Nat) (sendOk : Bool) (e : String) :
    ∀ (ms : List Snapshot) (st : BotState), (∀ m ∈ ms, m.id = e) →
      chronOK ms = true → Clean0 st e → ms.any inWindowObs = true →
      evalCount now sendOk st ms = 1 := by
  intro ms
  induction ms with
  | nil => intro st _ _ _ hwin; simp at hwin
  | cons m rest ih =>
    intro st hid hch hcl hwin
    have hme : m.id = e := hid m (List.mem_cons_self m rest)
    have hcl' : Clean0 st m.id := by rw [hme]; exact hcl
    simp only [chronOK, Bool.and_eq_true] at hch
    by_cases hm : inWindowObs m = true
    · have hstep := eval_step st m now sendOk hcl' hm
      have hflag' : flagOf (process_live_match st m now sendOk) e = true := by
        rw [← hme]
        exact hstep.2
      have hz := evalCount_zero_of_placed now sendOk e rest
        (process_live_match st m now sendOk)
        (fun x hx => hid x (List.mem_cons_of_mem m hx)) hch.2 hflag'
      simp [evalCount, hstep.1, hz]
    · have hm' : inWindowObs m = false := by simpa using hm
      have hstep := clean_step st m now sendOk hcl' hm'
      have hcl2 : Clean0 (process_live_match st m now sendOk) e := by
        rw [← hme]
        exact hstep.2
      have hwin' : rest.any inWindowObs = true := by
        simp only [List.any_cons, Bool.or_eq_true] at hwin
        rcases hwin with h | h
        · exact absurd h (by simp [hm'])
        · exact h
      simp [evalCount, hstep.1,
        ih (process_live_match st m now sendOk)
          (fun x hx => hid x (List.mem_cons_of_mem m hx)) hch.2 hcl2 hwin']

/-- Claim C7: trigger-window exactness.  For a freshly started process and a
chronological sequence of snapshots of one entity (no unfiltered first-half
observation after an unfiltered halftime observation) that contains at least
one unfiltered in-window first-half observation, the placement branch of
`process_live_match` runs exactly once — never zero times and never twice —
no matter how many cycles observe the entity inside the window and whether
or not its score matches a qualifying pattern. -/
theorem C7_trigger_window_exactness (e : String) (ms : List Snapshot)
    (now : Nat) (sendOk : Bool)
    (hid : ∀ m ∈ ms, m.id = e)
    (hch : chronOK ms = true)
    (hwin : ms.any inWindowObs = true) :
    evalCount now sendOk initState ms = 1 :=
  evalCount_one_of_clean now sendOk e ms initState hid hch (clean0_initState e) hwin

/-- Claim C7, witness: a two-cycle run that observes the entity at minutes
36 and 37 inside the window (qualifying score) evaluates it exactly once. -/
theorem C7_witness :
    ((∀ m ∈ [(⟨"101", "Alpha", "Beta", "La Liga", "Spain", 7, some 36, "1st half",
          some 1, some 1⟩ : Snapshot),
        (⟨"101", "Alpha", "Beta", "La Liga", "Spain", 7, some 37, "1st half",
          some 1, some 1⟩ : Snapshot)], m.id = "101") ∧
      chronOK [⟨"101", "Alpha", "Beta", "La Liga", "Spain", 7, some 36, "1st half",
          some 1, some 1⟩,
        ⟨"101", "Alpha", "Beta", "La Liga", "Spain", 7, some 37, "1st half",
          some 1, some 1⟩] = true ∧
      ([(⟨"101", "Alpha", "Beta", "La Liga", "Spain", 7, some 36, "1st half",
          some 1, some 1⟩ : Snapshot),
        (⟨"101", "Alpha", "Beta", "La Liga", "Spain", 7, some 37, "1st half",
          some 1, some 1⟩ : Snapshot)].any inWindowObs) = true) ∧
    evalCount 1000 true initState
        [⟨"101", "Alpha", "Beta", "La Liga", "Spain", 7, some 36, "1st half",
          some 1, some 1⟩,
         ⟨"101", "Alpha", "Beta", "La Liga", "Spain", 7, some 37, "1st half",
          some 1, some 1⟩] = 1 :=
  ⟨⟨by decide, by decide, by decide⟩,
   C7_trigger_window_exactness "101"
     [⟨"101", "Alpha", "Beta", "La Liga", "Spain", 7, some 36, "1st half",
        some 1, some 1⟩,
      ⟨"101", "Alpha", "Beta", "La Liga", "Spain", 7, some 37, "1st half",
        some 1, some 1⟩] 1000 true (by decide) (by decide) (by decide)⟩

end Sofa
